import Mathlib

/-!
# DatabaseControl: statement builders, handlers and row materializers

A shallow embedding of `DatabaseControl/DatabaseControl.go`.

* A Go `string` is a Lean `String`; text is inspected through `String.data`.
* A Go `map[string]interface{}` is the list of its entries in the order in which
  one `range` loop visits them (`GoMap`); the keys of a map are pairwise distinct.
  Every builder ranges over each of its maps exactly once.
* `interface{}` values are opaque to the code, so they are a type parameter `α`.
* `fmt.Sprintf` and `strings.Join` are embedded as the functions `Sprintf` and
  `stringsJoin`, and the builders keep the format strings of the source.
* The database engine is a parameter (`Engine`) with an explicit state; a handler
  maps the state before the request to an outcome and the state after it.
-/

namespace DatabaseControl

/-! ## Library functions used by the source -/

/-- Worker of `Sprintf`: copies the format and replaces each `%s` verb by the next
argument. A `%s` without an argument prints `%!s(MISSING)` as in Go. The source
uses no other verb and always passes exactly as many arguments as verbs. -/
def sprintfAux : List Char → List String → List Char
  | [], _ => []
  | c :: fmt, args =>
    if c = '%' then
      match fmt, args with
      | 's' :: rest, a :: as => a.data ++ sprintfAux rest as
      | 's' :: rest, [] => "%!s(MISSING)".data ++ sprintfAux rest []
      | rest, as => c :: sprintfAux rest as
    else c :: sprintfAux fmt args

/-- Go `fmt.Sprintf`, restricted to the `%s` verb. -/
def Sprintf (format : String) (args : List String) : String :=
  ⟨sprintfAux format.data args⟩

/-- Go `strings.Join`: empty for no element, the element itself for one, and
otherwise the first element followed by `sep` and the next element, repeatedly. -/
def stringsJoin (elems : List String) (sep : String) : String :=
  match elems with
  | [] => ""
  | [e] => e
  | e :: rest => rest.foldl (fun b s => b ++ sep ++ s) e

/-! ## Go maps -/

/-- The entries of a Go `map[string]α`, in the order a `range` loop visits them. -/
abbrev GoMap (α : Type) := List (String × α)

/-- The keys of a map, in iteration order. -/
def GoMap.keys {α : Type} (m : GoMap α) : List String := m.map Prod.fst

/-- The values of a map, in iteration order. -/
def GoMap.vals {α : Type} (m : GoMap α) : List α := m.map Prod.snd

/-- Go `m[k]` with the comma-ok result: the value stored under `k`, if any. -/
def GoMap.get {α : Type} : GoMap α → String → Option α
  | [], _ => none
  | (k, v) :: rest, key => if k = key then some v else GoMap.get rest key

/-- Go `m[k] = v`: overwrites the entry of `k` if there is one, adds one otherwise. -/
def GoMap.set {α : Type} : GoMap α → String → α → GoMap α
  | [], key, val => [(key, val)]
  | (k, v) :: rest, key, val =>
    if k = key then (k, val) :: rest else (k, v) :: GoMap.set rest key val

/-! ## SQL builders -/

/-- Source: `buildCreateTableSQL`. -/
def buildCreateTableSQL (relation : String) (attributes foreignKeys : GoMap String) : String :=
  let columns : List String := []
  let columns := attributes.foldl
    (fun columns e => columns ++ [Sprintf "%s %s" [e.1, e.2]]) columns
  let columns := foreignKeys.foldl
    (fun columns e => columns ++
      [Sprintf "FOREIGN KEY (%s) REFERENCES %s ON UPDATE CASCADE ON DELETE CASCADE" [e.1, e.2]])
    columns
  Sprintf "CREATE TABLE IF NOT EXISTS %s (%s);" [relation, stringsJoin columns ", "]

/-- Source: `buildInsertSQL`. The loop state is `(columns, placeholders, values)`. -/
def buildInsertSQL {α : Type} (relation : String) (records : GoMap α) : String × List α :=
  let st := records.foldl
    (fun (st : List String × List String × List α) e =>
      (st.1 ++ [e.1], st.2.1 ++ ["?"], st.2.2 ++ [e.2]))
    ([], [], [])
  (Sprintf "INSERT INTO %s (%s) VALUES (%s);"
    [relation, stringsJoin st.1 ", ", stringsJoin st.2.1 ", "], st.2.2)

/-- The loop `for column, value := range m` shared by the delete, select and update
builders: appends `column = ?` to the clause list and `value` to the values. -/
def rangeClause {α : Type} (m : GoMap α) (st : List String × List α) : List String × List α :=
  m.foldl (fun st e => (st.1 ++ [Sprintf "%s = ?" [e.1]], st.2 ++ [e.2])) st

/-- Source: `buildDeleteSQL`. -/
def buildDeleteSQL {α : Type} (relation : String) (conditions : GoMap α) : String × List α :=
  let st := rangeClause conditions ([], [])
  (Sprintf "DELETE FROM %s WHERE %s;" [relation, stringsJoin st.1 " AND "], st.2)

/-- Source: `buildSelectSQL`. -/
def buildSelectSQL {α : Type} (relation : String) (conditions : GoMap α)
    (toQuery : List String) : String × List α :=
  let columns := if toQuery.length > 0 then stringsJoin toQuery ", " else "*"
  let st := rangeClause conditions ([], [])
  let query := Sprintf "SELECT %s FROM %s" [columns, relation]
  let query :=
    if st.1.length > 0 then query ++ Sprintf " WHERE %s" [stringsJoin st.1 " AND "] else query
  (query ++ ";", st.2)

/-- Source: `buildUpdateSQL`. Both loops append to the one `values` slice. -/
def buildUpdateSQL {α : Type} (relation : String) (conditions newValues : GoMap α) :
    String × List α :=
  let setSt := rangeClause newValues ([], [])
  let whereSt := rangeClause conditions ([], setSt.2)
  (Sprintf "UPDATE %s SET %s WHERE %s;"
    [relation, stringsJoin setSt.1 ", ", stringsJoin whereSt.1 " AND "], whereSt.2)

/-- Source: `buildCreateTriggerSQL`. -/
def buildCreateTriggerSQL (triggerName action tableName triggeringEvent sqlOperation : String) :
    String :=
  Sprintf "\n\tCREATE TRIGGER IF NOT EXISTS %s\n\t%s ON %s\n\tFOR EACH ROW\n\tWHEN (%s)\n\tBEGIN\n\t\t%s;\n\tEND;"
    [triggerName, action, tableName, triggeringEvent, sqlOperation]

/-! ## Row materializers -/

/-- A driver cursor (`*sql.Rows`): the outcome of `rows.Columns()`, and the rows that
`rows.Next()` yields before it returns false, each as the list of its column values. -/
structure Cursor (α : Type) where
  columns : Except String (List String)
  rows : List (List α)

/-- The call `rows.Scan(columnPointers...)` with `n` pointers to `interface{}`: an error
when the current row does not hold exactly `n` values, and otherwise the values stored
through the pointers, in order. -/
def scan {α : Type} (row : List α) (n : Nat) : Except String (List α) :=
  if row.length = n then .ok row else .error "sql: wrong number of destination arguments in Scan"

/-- The loop `for rows.Next()` of `rowsToDict`; `results` is the slice built so far. The
inner loop `for i, colName := range columns` stores pointer `i` under `colName`. -/
def rowsToDictLoop {α : Type} (columns : List String) :
    List (List α) → List (GoMap α) → Except String (List (GoMap α))
  | [], results => .ok results
  | r :: rest, results =>
    match scan r columns.length with
    | .error err => .error err
    | .ok columnPointers =>
      let row := (columns.zip columnPointers).foldl (fun row e => GoMap.set row e.1 e.2) []
      rowsToDictLoop columns rest (results ++ [row])

/-- The dict-shape row that the inner loop of `rowsToDict` builds from the pointers. -/
def dictOfRow {α : Type} (columns : List String) (columnPointers : List α) : GoMap α :=
  (columns.zip columnPointers).foldl (fun row e => GoMap.set row e.1 e.2) []

/-- Source: `rowsToDict`. -/
def rowsToDict {α : Type} (rows : Cursor α) : Except String (List (GoMap α)) :=
  match rows.columns with
  | .error err => .error err
  | .ok columns => rowsToDictLoop columns rows.rows []

/-- The loop `for rows.Next()` of `rowsToList`; `results` is the slice built so far. The
inner loop `for i := range columns` copies pointer `i` to position `i` of the row. -/
def rowsToListLoop {α : Type} (columns : List String) :
    List (List α) → List (List α) → Except String (List (List α))
  | [], results => .ok results
  | r :: rest, results =>
    match scan r columns.length with
    | .error err => .error err
    | .ok columnPointers =>
      let row := (columns.zip columnPointers).map (fun e => e.2)
      rowsToListLoop columns rest (results ++ [row])

/-- Source: `rowsToList`. -/
def rowsToList {α : Type} (rows : Cursor α) : Except String (List (List α)) :=
  match rows.columns with
  | .error err => .error err
  | .ok columns => rowsToListLoop columns rows.rows []

/-! ## Handlers -/

/-- The database engine behind the handles of type `H`, with state `σ`: the result of
`Exec` and of `Query` on a live handle, and the state after the call. -/
structure Engine (σ H α : Type) where
  Exec : H → String → List α → σ → Except String Unit × σ
  Query : H → String → List α → σ → Except String (Cursor α) × σ

/-- The `result` field of a query response, in the dict or in the list shape. -/
inductive QueryResult (α : Type) where
  | dict (rows : List (GoMap α))
  | list (rows : List (List α))

/-- The JSON bodies the handlers send. -/
inductive Body (α : Type) where
  | success
  | successResult (result : QueryResult α)
  | invalidJSON
  | invalidConditions
  | error (message : String)

/-- Why a handler aborted with a runtime panic. -/
inductive PanicReason where
  | nilHandle
  | indexOutOfRange

/-- What a handler does: it sends one response, or it aborts with a runtime panic. -/
inductive Outcome (α : Type) where
  | respond (status : Nat) (body : Body α)
  | panic (reason : PanicReason)

/-- The handler reported an error to the caller: a response with a status other than
200. -/
def Outcome.reportsError {α : Type} : Outcome α → Bool
  | .respond status _ => status != 200
  | .panic _ => false

/-- The lines `database := req.Database; if database == "" { database = "main" }`. -/
def defaultDatabase (database : String) : String :=
  if database = "" then "main" else database

/-- The call `db[database].Exec(query, args...)`: `db[database]` is the nil handle when
`database` is not a key of `db`, and a method call on the nil handle panics (`none`). -/
def dbExec {σ H α : Type} (E : Engine σ H α) (db : GoMap H) (database query : String)
    (args : List α) (s : σ) : Option (Except String Unit × σ) :=
  match db.get database with
  | none => none
  | some handle => some (E.Exec handle query args s)

/-- The call `db[database].Query(query, args...)`, as `dbExec`. -/
def dbQuery {σ H α : Type} (E : Engine σ H α) (db : GoMap H) (database query : String)
    (args : List α) (s : σ) : Option (Except String (Cursor α) × σ) :=
  match db.get database with
  | none => none
  | some handle => some (E.Query handle query args s)

/-- The request body of `createTable`. -/
structure CreateTableRequest where
  Tables : GoMap (List (GoMap String))
  Database : String

/-- The loop `for tableName, fields := range req.Tables` of `createTable`. -/
def createTableLoop {σ H α : Type} (E : Engine σ H α) (db : GoMap H) (database : String) :
    GoMap (List (GoMap String)) → σ → Outcome α × σ
  | [], s => (.respond 200 .success, s)
  | (tableName, fields) :: rest, s =>
    match fields with
    | attributes :: foreignKeys :: _ =>
      let sqlStmt := buildCreateTableSQL tableName attributes foreignKeys
      match dbExec E db database sqlStmt [] s with
      | none => (.panic .nilHandle, s)
      | some (.error err, s1) => (.respond 500 (.error err), s1)
      | some (.ok _, s1) => createTableLoop E db database rest s1
    | _ => (.panic .indexOutOfRange, s)

/-- Source: `createTable`; `req` is `none` when `ShouldBindJSON` fails. -/
def createTable {σ H α : Type} (E : Engine σ H α) (db : GoMap H)
    (req : Option CreateTableRequest) (s : σ) : Outcome α × σ :=
  match req with
  | none => (.respond 400 .invalidJSON, s)
  | some req =>
    let database := defaultDatabase req.Database
    createTableLoop E db database req.Tables s

/-- The request body of `insertRecord`. -/
structure InsertRequest (α : Type) where
  Relation : String
  Records : GoMap α
  Database : String

/-- Source: `insertRecord`; `req` is `none` when `ShouldBindJSON` fails. -/
def insertRecord {σ H α : Type} (E : Engine σ H α) (db : GoMap H)
    (req : Option (InsertRequest α)) (s : σ) : Outcome α × σ :=
  match req with
  | none => (.respond 400 .invalidJSON, s)
  | some req =>
    let database := defaultDatabase req.Database
    let built := buildInsertSQL req.Relation req.Records
    match dbExec E db database built.1 built.2 s with
    | none => (.panic .nilHandle, s)
    | some (.error err, s1) => (.respond 500 (.error err), s1)
    | some (.ok _, s1) => (.respond 200 .success, s1)

/-- The URL query parameters read by `deleteRecord` and `queryRecords`; a parameter
that is not given is the empty string (the empty list for `to_query`). -/
structure RecordQuery where
  relation : String
  conditions : String
  database : String
  to_query : List String
  return_as_dict : String

/-- Source: `deleteRecord`; `unmarshal` is `json.Unmarshal` into the conditions map,
`none` when it fails. -/
def deleteRecord {σ H α : Type} (E : Engine σ H α) (unmarshal : String → Option (GoMap α))
    (db : GoMap H) (q : RecordQuery) (s : σ) : Outcome α × σ :=
  let relation := q.relation
  let conditionsStr := q.conditions
  let database := defaultDatabase q.database
  match unmarshal conditionsStr with
  | none => (.respond 400 .invalidConditions, s)
  | some conditions =>
    let built := buildDeleteSQL relation conditions
    match dbExec E db database built.1 built.2 s with
    | none => (.panic .nilHandle, s)
    | some (.error err, s1) => (.respond 500 (.error err), s1)
    | some (.ok _, s1) => (.respond 200 .success, s1)

/-- The tail shared by `queryRecords` and `executeSQL`: materialize the cursor in the
requested shape and respond. -/
def respondRows {α : Type} (returnAsDict : Bool) (rows : Cursor α) : Outcome α :=
  if returnAsDict then
    match rowsToDict rows with
    | .error err => .respond 500 (.error err)
    | .ok results => .respond 200 (.successResult (.dict results))
  else
    match rowsToList rows with
    | .error err => .respond 500 (.error err)
    | .ok results => .respond 200 (.successResult (.list results))

/-- Source: `queryRecords`; the conditions stay the nil map when the parameter is
empty. -/
def queryRecords {σ H α : Type} (E : Engine σ H α) (unmarshal : String → Option (GoMap α))
    (db : GoMap H) (q : RecordQuery) (s : σ) : Outcome α × σ :=
  let relation := q.relation
  let conditionsStr := q.conditions
  let database := defaultDatabase q.database
  match (if conditionsStr ≠ "" then unmarshal conditionsStr else some []) with
  | none => (.respond 400 .invalidConditions, s)
  | some conditions =>
    let toQuery := q.to_query
    let returnAsDict := q.return_as_dict == "true"
    let built := buildSelectSQL relation conditions toQuery
    match dbQuery E db database built.1 built.2 s with
    | none => (.panic .nilHandle, s)
    | some (.error err, s1) => (.respond 500 (.error err), s1)
    | some (.ok rows, s1) => (respondRows returnAsDict rows, s1)

/-- The request body of `updateRecord`. -/
structure UpdateRequest (α : Type) where
  Relation : String
  Conditions : GoMap α
  NewValues : GoMap α
  Database : String

/-- Source: `updateRecord`; `req` is `none` when `ShouldBindJSON` fails. -/
def updateRecord {σ H α : Type} (E : Engine σ H α) (db : GoMap H)
    (req : Option (UpdateRequest α)) (s : σ) : Outcome α × σ :=
  match req with
  | none => (.respond 400 .invalidJSON, s)
  | some req =>
    let database := defaultDatabase req.Database
    let built := buildUpdateSQL req.Relation req.Conditions req.NewValues
    match dbExec E db database built.1 built.2 s with
    | none => (.panic .nilHandle, s)
    | some (.error err, s1) => (.respond 500 (.error err), s1)
    | some (.ok _, s1) => (.respond 200 .success, s1)

/-- The request body of `createTrigger`. -/
structure TriggerRequest where
  TriggerName : String
  Action : String
  TableName : String
  TriggeringEvent : String
  SQLOperation : String
  Database : String

/-- Source: `createTrigger`; `req` is `none` when `ShouldBindJSON` fails. -/
def createTrigger {σ H α : Type} (E : Engine σ H α) (db : GoMap H)
    (req : Option TriggerRequest) (s : σ) : Outcome α × σ :=
  match req with
  | none => (.respond 400 .invalidJSON, s)
  | some req =>
    let database := defaultDatabase req.Database
    let sqlStmt := buildCreateTriggerSQL req.TriggerName req.Action req.TableName
      req.TriggeringEvent req.SQLOperation
    match dbExec E db database sqlStmt [] s with
    | none => (.panic .nilHandle, s)
    | some (.error err, s1) => (.respond 500 (.error err), s1)
    | some (.ok _, s1) => (.respond 200 .success, s1)

/-- The request body of `executeSQL`. -/
structure SQLRequest (α : Type) where
  SQLStatement : String
  Database : String
  PlaceholdersMode : Bool
  ValuesTuple : List α
  QueryMode : Bool
  FKMode : Bool
  ReturnAsDict : Bool

/-- The part of `executeSQL` after the two pragmas. -/
def executeSQLStatement {σ H α : Type} (E : Engine σ H α) (db : GoMap H) (database : String)
    (req : SQLRequest α) (s : σ) : Outcome α × σ :=
  if req.QueryMode then
    match dbQuery E db database req.SQLStatement req.ValuesTuple s with
    | none => (.panic .nilHandle, s)
    | some (.error err, s1) => (.respond 500 (.error err), s1)
    | some (.ok rows, s1) => (respondRows req.ReturnAsDict rows, s1)
  else
    match dbExec E db database req.SQLStatement req.ValuesTuple s with
    | none => (.panic .nilHandle, s)
    | some (.error err, s1) => (.respond 500 (.error err), s1)
    | some (.ok _, s1) => (.respond 200 .success, s1)

/-- The part of `executeSQL` from the journal-mode pragma on; its result is dropped. -/
def executeSQLJournal {σ H α : Type} (E : Engine σ H α) (db : GoMap H) (database : String)
    (req : SQLRequest α) (s : σ) : Outcome α × σ :=
  match dbExec E db database "PRAGMA journal_mode = WAL;" [] s with
  | none => (.panic .nilHandle, s)
  | some (_, s1) => executeSQLStatement E db database req s1

/-- Source: `executeSQL`; `req` is `none` when `ShouldBindJSON` fails. The result of the
foreign-key pragma is dropped. -/
def executeSQL {σ H α : Type} (E : Engine σ H α) (db : GoMap H)
    (req : Option (SQLRequest α)) (s : σ) : Outcome α × σ :=
  match req with
  | none => (.respond 400 .invalidJSON, s)
  | some req =>
    let database := defaultDatabase req.Database
    if req.FKMode then
      match dbExec E db database "PRAGMA foreign_keys = ON;" [] s with
      | none => (.panic .nilHandle, s)
      | some (_, s1) => executeSQLJournal E db database req s1
    else executeSQLJournal E db database req s

/-- An engine for examples: every call succeeds and the state counts the calls. -/
def countingEngine : Engine Nat Unit Nat where
  Exec := fun _ _ _ n => (.ok (), n + 1)
  Query := fun _ _ _ n => (.ok ⟨.ok [], []⟩, n + 1)

/-! ## Reference description of the statement text -/

/-- The text `x1 <sep> x2 <sep> ... <sep> xn` (empty for no element). -/
def sepBy (sep : String) : List String → String
  | [] => ""
  | [x] => x
  | x :: y :: rest => x ++ sep ++ sepBy sep (y :: rest)

/-- The equality predicates `d1 = ?`, ..., `dm = ?` for the columns `d1..dm`. -/
def eqClauses (cols : List String) : List String := cols.map (fun c => c ++ " = ?")

/-- Number of `?` characters of a statement text. -/
def placeholderCount (text : String) : Nat := text.data.count '?'

/-- The text `text` contains `s` as a contiguous run of characters. -/
def occursIn (s text : String) : Prop := s.data <:+: text.data

instance (s text : String) : Decidable (occursIn s text) :=
  inferInstanceAs (Decidable (s.data <:+: text.data))

/-- Modelled from the spec: `validateIdentifier`, which the source does not define.
A valid identifier is non-empty, consists of letters, digits and underscores, and
does not start with a digit. -/
def validIdentifier (s : String) : Bool :=
  match s.data with
  | [] => false
  | c :: rest =>
    (c.isAlpha || c == '_') && rest.all (fun d => d.isAlphanum || d == '_')

/-! ## Lemmas on the library functions -/

theorem foldl_sep (sep : String) (rest : List String) (y acc : String) :
    (y :: rest).foldl (fun b s => b ++ sep ++ s) acc = acc ++ sep ++ sepBy sep (y :: rest) := by
  induction rest generalizing acc y with
  | nil => simp [sepBy]
  | cons z zs ih =>
    rw [List.foldl_cons, ih]
    simp [sepBy, String.append_assoc]

theorem stringsJoin_eq (elems : List String) (sep : String) :
    stringsJoin elems sep = sepBy sep elems := by
  match elems with
  | [] => rfl
  | [e] => rfl
  | e :: y :: rest =>
    simp only [stringsJoin]
    rw [foldl_sep]
    simp [sepBy, String.append_assoc]

theorem rangeClause_eq {α : Type} (m : GoMap α) (st : List String × List α) :
    rangeClause m st = (st.1 ++ eqClauses m.keys, st.2 ++ m.vals) := by
  unfold rangeClause
  induction m generalizing st with
  | nil => simp [eqClauses, GoMap.keys, GoMap.vals]
  | cons e rest ih =>
    rw [List.foldl_cons, ih]
    have h : Sprintf "%s = ?" [e.1] = e.1 ++ " = ?" := by
      apply String.ext
      simp [Sprintf, sprintfAux]
    simp [eqClauses, GoMap.keys, GoMap.vals, h]

theorem insertLoop_eq {α : Type} (records : GoMap α)
    (st : List String × List String × List α) :
    records.foldl
      (fun (st : List String × List String × List α) e =>
        (st.1 ++ [e.1], st.2.1 ++ ["?"], st.2.2 ++ [e.2])) st
      = (st.1 ++ records.keys, st.2.1 ++ List.replicate records.length "?",
          st.2.2 ++ records.vals) := by
  induction records generalizing st with
  | nil => simp [GoMap.keys, GoMap.vals]
  | cons e rest ih =>
    rw [List.foldl_cons, ih]
    simp [GoMap.keys, GoMap.vals, List.replicate_succ]

/-! ## Closed forms of the builders -/

theorem buildInsertSQL_eq {α : Type} (relation : String) (records : GoMap α) :
    buildInsertSQL relation records
      = ("INSERT INTO " ++ relation ++ " (" ++ sepBy ", " records.keys ++ ") VALUES ("
          ++ sepBy ", " (List.replicate records.length "?") ++ ");", records.vals) := by
  unfold buildInsertSQL
  rw [insertLoop_eq]
  simp only [List.nil_append, stringsJoin_eq]
  refine Prod.ext (String.ext ?_) rfl
  simp [Sprintf, sprintfAux]

theorem buildDeleteSQL_eq {α : Type} (relation : String) (conditions : GoMap α) :
    buildDeleteSQL relation conditions
      = ("DELETE FROM " ++ relation ++ " WHERE " ++ sepBy " AND " (eqClauses conditions.keys)
          ++ ";", conditions.vals) := by
  unfold buildDeleteSQL
  rw [rangeClause_eq]
  simp only [List.nil_append, stringsJoin_eq]
  refine Prod.ext (String.ext ?_) rfl
  simp [Sprintf, sprintfAux]

theorem buildSelectSQL_eq {α : Type} (relation : String) (conditions : GoMap α)
    (toQuery : List String) :
    buildSelectSQL relation conditions toQuery
      = ("SELECT " ++ (if toQuery.isEmpty then "*" else sepBy ", " toQuery) ++ " FROM " ++ relation
          ++ (if conditions.isEmpty then ""
              else " WHERE " ++ sepBy " AND " (eqClauses conditions.keys))
          ++ ";", conditions.vals) := by
  unfold buildSelectSQL
  rw [rangeClause_eq]
  simp only [List.nil_append, stringsJoin_eq]
  refine Prod.ext (String.ext ?_) rfl
  cases toQuery <;> cases conditions <;>
    simp [Sprintf, sprintfAux, eqClauses, GoMap.keys]

theorem buildUpdateSQL_eq {α : Type} (relation : String) (conditions newValues : GoMap α) :
    buildUpdateSQL relation conditions newValues
      = ("UPDATE " ++ relation ++ " SET " ++ sepBy ", " (eqClauses newValues.keys) ++ " WHERE "
          ++ sepBy " AND " (eqClauses conditions.keys) ++ ";",
          newValues.vals ++ conditions.vals) := by
  unfold buildUpdateSQL
  simp only [rangeClause_eq, List.nil_append, stringsJoin_eq]
  refine Prod.ext (String.ext ?_) rfl
  simp [Sprintf, sprintfAux]

/-! ## Counting placeholders -/

theorem placeholderCount_append (a b : String) :
    placeholderCount (a ++ b) = placeholderCount a + placeholderCount b := by
  simp [placeholderCount]

theorem placeholderCount_eq_zero {s : String} (h : '?' ∉ s.data) : placeholderCount s = 0 := by
  simpa [placeholderCount, List.count_eq_zero] using h

theorem placeholderCount_sepBy (sep : String) (hsep : placeholderCount sep = 0)
    (xs : List String) :
    placeholderCount (sepBy sep xs) = (xs.map placeholderCount).sum := by
  induction xs with
  | nil => simp [sepBy, placeholderCount]
  | cons x rest ih =>
    cases rest with
    | nil => simp [sepBy]
    | cons y zs =>
      rw [sepBy, placeholderCount_append, placeholderCount_append, hsep, ih]
      simp

theorem placeholderCount_names (sep : String) (hsep : placeholderCount sep = 0)
    (xs : List String) (h : ∀ x ∈ xs, '?' ∉ x.data) :
    placeholderCount (sepBy sep xs) = 0 := by
  rw [placeholderCount_sepBy sep hsep]
  apply List.sum_eq_zero
  intro n hn
  obtain ⟨x, hx, rfl⟩ := List.mem_map.1 hn
  exact placeholderCount_eq_zero (h x hx)

theorem sum_map_one {β : Type} (f : β → Nat) (xs : List β) (h : ∀ x ∈ xs, f x = 1) :
    (xs.map f).sum = xs.length := by
  induction xs with
  | nil => rfl
  | cons x rest ih =>
    simp only [List.map_cons, List.sum_cons, List.length_cons]
    rw [h x (List.mem_cons_self _ _), ih (fun y hy => h y (List.mem_cons_of_mem _ hy))]
    omega

theorem placeholderCount_eqClauses (sep : String) (hsep : placeholderCount sep = 0)
    (cols : List String) (h : ∀ c ∈ cols, '?' ∉ c.data) :
    placeholderCount (sepBy sep (eqClauses cols)) = cols.length := by
  rw [placeholderCount_sepBy sep hsep, eqClauses, List.map_map]
  apply sum_map_one
  intro c hc
  have h0 := placeholderCount_eq_zero (h c hc)
  have h1 : placeholderCount " = ?" = 1 := by decide
  simp [placeholderCount_append, h0, h1]

theorem placeholderCount_marks (n : Nat) :
    placeholderCount (sepBy ", " (List.replicate n "?")) = n := by
  rw [placeholderCount_sepBy ", " (by decide)]
  have h := sum_map_one placeholderCount (List.replicate n "?")
    (fun x hx => by rw [List.eq_of_mem_replicate hx]; decide)
  simpa using h

/-! ## Names occurring in the text -/

theorem occursIn_self (s : String) : occursIn s s := ⟨[], [], by simp⟩

theorem occursIn_append_left {s a : String} (b : String) (h : occursIn s a) :
    occursIn s (a ++ b) := by
  obtain ⟨u, v, huv⟩ := h
  exact ⟨u, v ++ b.data, by simp [← huv]⟩

theorem occursIn_append_right {s b : String} (a : String) (h : occursIn s b) :
    occursIn s (a ++ b) := by
  obtain ⟨u, v, huv⟩ := h
  exact ⟨a.data ++ u, v, by simp [← huv]⟩

theorem occursIn_sepBy (sep : String) {x : String} {xs : List String} (hx : x ∈ xs) :
    occursIn x (sepBy sep xs) := by
  induction xs with
  | nil => cases hx
  | cons y rest ih =>
    cases rest with
    | nil =>
      rw [List.mem_singleton] at hx
      subst hx
      exact occursIn_self _
    | cons z zs =>
      rw [sepBy]
      rcases List.mem_cons.1 hx with h | h
      · subst h
        exact occursIn_append_left _ (occursIn_append_left _ (occursIn_self _))
      · exact occursIn_append_right _ (ih h)

theorem occursIn_eqClauses (sep : String) {c : String} {cols : List String} (hc : c ∈ cols) :
    occursIn c (sepBy sep (eqClauses cols)) := by
  have hmem : c ++ " = ?" ∈ eqClauses cols := List.mem_map.2 ⟨c, hc, rfl⟩
  obtain ⟨u, v, huv⟩ := occursIn_sepBy sep hmem
  exact ⟨u, " = ?".data ++ v, by simp [← huv]⟩

/-! ## Values stored in a map -/

theorem get_cons_of_ne {α : Type} (k : String) (v : α) (rest : GoMap α) {key : String}
    (h : k ≠ key) : GoMap.get ((k, v) :: rest) key = GoMap.get rest key := by
  simp [GoMap.get, h]

theorem keys_map_get {α : Type} (m : GoMap α) (h : m.keys.Nodup) :
    m.keys.map m.get = m.vals.map some := by
  induction m with
  | nil => rfl
  | cons e rest ih =>
    obtain ⟨k, v⟩ := e
    simp only [GoMap.keys, List.map_cons, List.nodup_cons] at h
    simp only [GoMap.keys, GoMap.vals, List.map_cons]
    congr 1
    · simp [GoMap.get]
    · rw [← GoMap.keys, ← GoMap.vals, ← ih h.2]
      apply List.map_congr_left
      intro key hkey
      apply get_cons_of_ne
      rintro rfl
      exact h.1 hkey

/-! ## Statement builders: claims -/

/-- C1, as stated, fails: a `?` inside a column name is copied into the text, so
`buildDeleteSQL` on table `t` with the one condition key `a?` returns a text with two
`?` characters and one parameter. -/
theorem placeholder_count_counterexample :
    (buildDeleteSQL "t" [("a?", (1 : Nat))]).1 = "DELETE FROM t WHERE a? = ?;" ∧
    placeholderCount (buildDeleteSQL "t" [("a?", (1 : Nat))]).1 = 2 ∧
    (buildDeleteSQL "t" [("a?", (1 : Nat))]).2.length = 1 ∧
    placeholderCount (buildDeleteSQL "t" [("a?", (1 : Nat))]).1
      ≠ (buildDeleteSQL "t" [("a?", (1 : Nat))]).2.length := by
  decide

/-- C1, amended: when the table name, the column names / condition keys and the
projection names contain no `?` character, the number of `?` placeholders in the text
returned by each of `buildInsertSQL`, `buildDeleteSQL`, `buildSelectSQL` and
`buildUpdateSQL` equals the length of the parameter list returned with it. -/
theorem placeholder_count_eq_params {α : Type} (relation : String)
    (records conditions newValues : GoMap α) (toQuery : List String)
    (hrel : '?' ∉ relation.data)
    (hrec : ∀ k ∈ records.keys, '?' ∉ k.data)
    (hcond : ∀ k ∈ conditions.keys, '?' ∉ k.data)
    (hnew : ∀ k ∈ newValues.keys, '?' ∉ k.data)
    (hproj : ∀ p ∈ toQuery, '?' ∉ p.data) :
    placeholderCount (buildInsertSQL relation records).1
        = (buildInsertSQL relation records).2.length ∧
    placeholderCount (buildDeleteSQL relation conditions).1
        = (buildDeleteSQL relation conditions).2.length ∧
    placeholderCount (buildSelectSQL relation conditions toQuery).1
        = (buildSelectSQL relation conditions toQuery).2.length ∧
    placeholderCount (buildUpdateSQL relation conditions newValues).1
        = (buildUpdateSQL relation conditions newValues).2.length := by
  have hr := placeholderCount_eq_zero hrel
  have hand : placeholderCount " AND " = 0 := by decide
  have hcomma : placeholderCount ", " = 0 := by decide
  have hc := placeholderCount_eqClauses " AND " hand conditions.keys hcond
  have hn := placeholderCount_eqClauses ", " hcomma newValues.keys hnew
  have hp := placeholderCount_names ", " hcomma toQuery hproj
  have hk : ∀ m : GoMap α, m.keys.length = m.length := fun m => by simp [GoMap.keys]
  have hv : ∀ m : GoMap α, m.vals.length = m.length := fun m => by simp [GoMap.vals]
  refine ⟨?_, ?_, ?_, ?_⟩
  · rw [buildInsertSQL_eq]
    simp only [placeholderCount_append, placeholderCount_marks, hr,
      placeholderCount_names ", " hcomma records.keys hrec, hv]
    have h1 : placeholderCount "INSERT INTO " = 0 := by decide
    have h2 : placeholderCount " (" = 0 := by decide
    have h3 : placeholderCount ") VALUES (" = 0 := by decide
    have h4 : placeholderCount ");" = 0 := by decide
    omega
  · rw [buildDeleteSQL_eq]
    simp only [placeholderCount_append, hr, hc, hv, hk]
    have h1 : placeholderCount "DELETE FROM " = 0 := by decide
    have h2 : placeholderCount " WHERE " = 0 := by decide
    have h3 : placeholderCount ";" = 0 := by decide
    omega
  · rw [buildSelectSQL_eq]
    have h1 : placeholderCount "SELECT " = 0 := by decide
    have h2 : placeholderCount " FROM " = 0 := by decide
    have h3 : placeholderCount ";" = 0 := by decide
    have h4 : placeholderCount "*" = 0 := by decide
    have h5 : placeholderCount " WHERE " = 0 := by decide
    have h6 : placeholderCount "" = 0 := by decide
    have hcols : placeholderCount (if toQuery.isEmpty then "*" else sepBy ", " toQuery) = 0 := by
      split
      · exact h4
      · exact hp
    have hwhere : placeholderCount (if conditions.isEmpty then ""
        else " WHERE " ++ sepBy " AND " (eqClauses conditions.keys)) = conditions.length := by
      cases conditions with
      | nil => simpa using h6
      | cons e rest =>
        simp only [List.isEmpty_cons, Bool.false_eq_true, if_false, placeholderCount_append,
          h5, hc, hk]
        omega
    simp only [placeholderCount_append, hr, hcols, hwhere, hv, h1, h2, h3]
    omega
  · rw [buildUpdateSQL_eq]
    simp only [placeholderCount_append, hr, hc, hn, hv, hk, List.length_append]
    have h1 : placeholderCount "UPDATE " = 0 := by decide
    have h2 : placeholderCount " SET " = 0 := by decide
    have h3 : placeholderCount " WHERE " = 0 := by decide
    have h4 : placeholderCount ";" = 0 := by decide
    omega

/-- Witness of C1: the amended invariant at table `t`, record `a, b`, condition `id`,
new value `name` and projection `a`. -/
theorem placeholder_count_eq_params_witness :
    placeholderCount (buildInsertSQL "t" [("a", (1 : Nat)), ("b", 2)]).1
        = (buildInsertSQL "t" [("a", (1 : Nat)), ("b", 2)]).2.length ∧
    placeholderCount (buildDeleteSQL "t" [("id", (7 : Nat))]).1
        = (buildDeleteSQL "t" [("id", (7 : Nat))]).2.length ∧
    placeholderCount (buildSelectSQL "t" [("id", (7 : Nat))] ["a"]).1
        = (buildSelectSQL "t" [("id", (7 : Nat))] ["a"]).2.length ∧
    placeholderCount (buildUpdateSQL "t" [("id", (7 : Nat))] [("name", 3)]).1
        = (buildUpdateSQL "t" [("id", (7 : Nat))] [("name", 3)]).2.length :=
  placeholder_count_eq_params "t" [("a", 1), ("b", 2)] [("id", 7)] [("name", 3)] ["a"]
    (by decide) (by decide) (by decide) (by decide) (by decide)

/-- C2, as stated, fails: the condition key `x=1; --` is outside the identifier
grammar, and `buildSelectSQL`, `buildDeleteSQL` and `buildUpdateSQL` each return a
statement that contains it. -/
theorem invalid_key_interpolated :
    validIdentifier "x=1; --" = false ∧
    (buildSelectSQL "t" [("x=1; --", (1 : Nat))] []).1
      = "SELECT * FROM t WHERE x=1; -- = ?;" ∧
    occursIn "x=1; --" (buildSelectSQL "t" [("x=1; --", (1 : Nat))] []).1 ∧
    (buildDeleteSQL "t" [("x=1; --", (1 : Nat))]).1
      = "DELETE FROM t WHERE x=1; -- = ?;" ∧
    occursIn "x=1; --" (buildDeleteSQL "t" [("x=1; --", (1 : Nat))]).1 ∧
    (buildUpdateSQL "t" [("x=1; --", (1 : Nat))] [("a", 2)]).1
      = "UPDATE t SET a = ? WHERE x=1; -- = ?;" ∧
    occursIn "x=1; --" (buildUpdateSQL "t" [("x=1; --", (1 : Nat))] [("a", 2)]).1 := by
  decide

/-- C2, amended: no structured builder checks a name against the identifier grammar.
For every table name, column names, condition keys and projection names, matching the
grammar or not, each of `buildInsertSQL`, `buildDeleteSQL`, `buildSelectSQL` and
`buildUpdateSQL` returns a statement whose text contains the table name and each of
these names verbatim. -/
theorem names_interpolated_verbatim {α : Type} (relation : String)
    (records conditions newValues : GoMap α) (toQuery : List String) :
    (occursIn relation (buildInsertSQL relation records).1 ∧
      ∀ k ∈ records.keys, occursIn k (buildInsertSQL relation records).1) ∧
    (occursIn relation (buildDeleteSQL relation conditions).1 ∧
      ∀ k ∈ conditions.keys, occursIn k (buildDeleteSQL relation conditions).1) ∧
    (occursIn relation (buildSelectSQL relation conditions toQuery).1 ∧
      (∀ k ∈ conditions.keys, occursIn k (buildSelectSQL relation conditions toQuery).1) ∧
      ∀ p ∈ toQuery, occursIn p (buildSelectSQL relation conditions toQuery).1) ∧
    (occursIn relation (buildUpdateSQL relation conditions newValues).1 ∧
      (∀ k ∈ conditions.keys, occursIn k (buildUpdateSQL relation conditions newValues).1) ∧
      ∀ k ∈ newValues.keys, occursIn k (buildUpdateSQL relation conditions newValues).1) := by
  have L := @occursIn_append_left
  have R := @occursIn_append_right
  refine ⟨⟨?_, ?_⟩, ⟨?_, ?_⟩, ⟨?_, ?_, ?_⟩, ⟨?_, ?_, ?_⟩⟩
  · rw [buildInsertSQL_eq]
    exact L _ (L _ (L _ (L _ (L _ (R _ (occursIn_self _))))))
  · intro k hk
    rw [buildInsertSQL_eq]
    exact L _ (L _ (L _ (R _ (occursIn_sepBy ", " hk))))
  · rw [buildDeleteSQL_eq]
    exact L _ (L _ (L _ (R _ (occursIn_self _))))
  · intro k hk
    rw [buildDeleteSQL_eq]
    exact L _ (R _ (occursIn_eqClauses " AND " hk))
  · rw [buildSelectSQL_eq]
    exact L _ (L _ (R _ (occursIn_self _)))
  · intro k hk
    rw [buildSelectSQL_eq]
    have hne : conditions.isEmpty = false := by
      cases conditions with
      | nil => cases hk
      | cons e rest => rfl
    simp only [hne, Bool.false_eq_true, if_false]
    exact L _ (R _ (R _ (occursIn_eqClauses " AND " hk)))
  · intro q hq
    rw [buildSelectSQL_eq]
    have hne : toQuery.isEmpty = false := by
      cases toQuery with
      | nil => cases hq
      | cons e rest => rfl
    simp only [hne, Bool.false_eq_true, if_false]
    exact L _ (L _ (L _ (L _ (R _ (occursIn_sepBy ", " hq)))))
  · rw [buildUpdateSQL_eq]
    exact L _ (L _ (L _ (L _ (L _ (R _ (occursIn_self _))))))
  · intro k hk
    rw [buildUpdateSQL_eq]
    exact L _ (R _ (occursIn_eqClauses " AND " hk))
  · intro k hk
    rw [buildUpdateSQL_eq]
    exact L _ (L _ (L _ (R _ (occursIn_eqClauses ", " hk))))

/-- Witness of C2: the amended statement at the condition key `x=1; --`, which is
outside the identifier grammar and occurs in the text of the select statement. -/
theorem names_interpolated_verbatim_witness :
    validIdentifier "x=1; --" = false ∧
    occursIn "x=1; --" (buildSelectSQL "t" [("x=1; --", (1 : Nat))] ["a"]).1 :=
  ⟨by decide,
    (names_interpolated_verbatim "t" [("a", (1 : Nat))] [("x=1; --", 1)] [("b", 2)]
      ["a"]).2.2.1.2.1 "x=1; --" (by decide)⟩

/-- C3: the statement text depends on the column names only, and the parameter list is
the supplied values. For two record / condition / new-values mappings with the same
column names in the same order and arbitrary values, each of `buildInsertSQL`,
`buildDeleteSQL`, `buildSelectSQL` and `buildUpdateSQL` returns the same text, and the
parameters returned are exactly the values of the mapping (for update: the new values
followed by the condition values). -/
theorem values_never_in_text {α β : Type} (relation : String)
    (records conditions newValues : GoMap α) (records2 conditions2 newValues2 : GoMap β)
    (toQuery : List String)
    (hrec : records.keys = records2.keys)
    (hcond : conditions.keys = conditions2.keys)
    (hnew : newValues.keys = newValues2.keys) :
    ((buildInsertSQL relation records).1 = (buildInsertSQL relation records2).1 ∧
      (buildInsertSQL relation records).2 = records.vals) ∧
    ((buildDeleteSQL relation conditions).1 = (buildDeleteSQL relation conditions2).1 ∧
      (buildDeleteSQL relation conditions).2 = conditions.vals) ∧
    ((buildSelectSQL relation conditions toQuery).1
        = (buildSelectSQL relation conditions2 toQuery).1 ∧
      (buildSelectSQL relation conditions toQuery).2 = conditions.vals) ∧
    ((buildUpdateSQL relation conditions newValues).1
        = (buildUpdateSQL relation conditions2 newValues2).1 ∧
      (buildUpdateSQL relation conditions newValues).2
        = newValues.vals ++ conditions.vals) := by
  have hlen : records.length = records2.length := by
    have h := congrArg List.length hrec
    simpa [GoMap.keys] using h
  have hemp : conditions.isEmpty = conditions2.isEmpty := by
    cases conditions <;> cases conditions2 <;> simp_all [GoMap.keys]
  simp only [buildInsertSQL_eq, buildDeleteSQL_eq, buildSelectSQL_eq, buildUpdateSQL_eq,
    hrec, hcond, hnew, hlen, hemp, and_self]

/-- Witness of C3: two records with columns `a, b`, two condition sets with key `id`
and two new-values mappings with column `name`, holding different values. -/
theorem values_never_in_text_witness :
    (buildInsertSQL "t" [("a", (1 : Nat)), ("b", 2)]).1
      = (buildInsertSQL "t" [("a", "x"), ("b", "it; DROP TABLE t")]).1 ∧
    (buildUpdateSQL "t" [("id", (7 : Nat))] [("name", 3)]).2 = [3, 7] :=
  have h := values_never_in_text "t" [("a", (1 : Nat)), ("b", 2)] [("id", 7)] [("name", 3)]
    [("a", "x"), ("b", "it; DROP TABLE t")] [("id", "?")] [("name", "")] ["a"]
    (by decide) (by decide) (by decide)
  ⟨h.1.1, h.2.2.2.2⟩

/-- C4: for a new-values mapping with columns `c1..cn` and a non-empty condition mapping
with columns `d1..dm`, `buildUpdateSQL` returns the text
`UPDATE <table> SET c1 = ?, ..., cn = ? WHERE d1 = ? AND ... AND dm = ?;` and a
parameter list of length `n + m`; its first `n` elements are the values the new-values
mapping stores under `c1..cn`, in SET order, and its last `m` elements are the values
the condition mapping stores under `d1..dm`, in WHERE order. The keys of a Go map are
pairwise distinct, which is what the two `Nodup` hypotheses say. -/
theorem buildUpdateSQL_set_then_where {α : Type} (relation : String)
    (conditions newValues : GoMap α)
    (_hne : conditions ≠ [])
    (hcond : conditions.keys.Nodup) (hnew : newValues.keys.Nodup) :
    (buildUpdateSQL relation conditions newValues).1
      = "UPDATE " ++ relation ++ " SET " ++ sepBy ", " (eqClauses newValues.keys)
          ++ " WHERE " ++ sepBy " AND " (eqClauses conditions.keys) ++ ";" ∧
    (buildUpdateSQL relation conditions newValues).2.length
      = newValues.length + conditions.length ∧
    ((buildUpdateSQL relation conditions newValues).2.take newValues.length).map some
      = newValues.keys.map newValues.get ∧
    ((buildUpdateSQL relation conditions newValues).2.drop newValues.length).map some
      = conditions.keys.map conditions.get := by
  have hv : newValues.vals.length = newValues.length := by simp [GoMap.vals]
  rw [buildUpdateSQL_eq]
  refine ⟨rfl, ?_, ?_, ?_⟩
  · simp [GoMap.vals]
  · rw [keys_map_get newValues hnew, ← hv]
    simp
  · rw [keys_map_get conditions hcond, ← hv]
    simp

/-- Witness of C4: table `t`, new values `name = 3, age = 4`, condition `id = 7`. -/
theorem buildUpdateSQL_set_then_where_witness :
    (buildUpdateSQL "t" [("id", (7 : Nat))] [("name", 3), ("age", 4)]).1
      = "UPDATE t SET name = ?, age = ? WHERE id = ?;" ∧
    (buildUpdateSQL "t" [("id", (7 : Nat))] [("name", 3), ("age", 4)]).2 = [3, 4, 7] :=
  have h := buildUpdateSQL_set_then_where "t" [("id", (7 : Nat))] [("name", 3), ("age", 4)]
    (by decide) (by decide) (by decide)
  ⟨h.1.trans (by decide), by decide⟩

/-- C5: for a record with columns `c1..cn`, `buildInsertSQL` returns the text
`INSERT INTO <table> (c1, ..., cn) VALUES (?, ..., ?);` whose VALUES list holds exactly
`n` placeholders, and a parameter list of length `n` whose i-th element is the value the
record stores under the i-th column of the emitted column list. The keys of a Go map
are pairwise distinct, which is what the `Nodup` hypothesis says. -/
theorem buildInsertSQL_columns_and_values {α : Type} (relation : String) (records : GoMap α)
    (hrec : records.keys.Nodup) :
    (buildInsertSQL relation records).1
      = "INSERT INTO " ++ relation ++ " (" ++ sepBy ", " records.keys ++ ") VALUES ("
          ++ sepBy ", " (List.replicate records.length "?") ++ ");" ∧
    placeholderCount (sepBy ", " (List.replicate records.length "?")) = records.length ∧
    (buildInsertSQL relation records).2.length = records.length ∧
    (buildInsertSQL relation records).2.map some = records.keys.map records.get := by
  rw [buildInsertSQL_eq]
  refine ⟨rfl, placeholderCount_marks _, ?_, ?_⟩
  · simp [GoMap.vals]
  · rw [keys_map_get records hrec]

/-- Witness of C5: table `t` and the record `id = 1, name = 5`. -/
theorem buildInsertSQL_columns_and_values_witness :
    (buildInsertSQL "t" [("id", (1 : Nat)), ("name", 5)]).1
      = "INSERT INTO t (id, name) VALUES (?, ?);" ∧
    (buildInsertSQL "t" [("id", (1 : Nat)), ("name", 5)]).2.map some
      = [GoMap.get [("id", (1 : Nat)), ("name", 5)] "id",
          GoMap.get [("id", (1 : Nat)), ("name", 5)] "name"] :=
  have h := buildInsertSQL_columns_and_values "t" [("id", (1 : Nat)), ("name", 5)]
    (by decide)
  ⟨h.1.trans (by decide), h.2.2.2⟩

/-- C6, the code at the failing input: with an empty condition set `buildDeleteSQL`
keeps the `WHERE` keyword and returns `DELETE FROM <table> WHERE ;` with no parameter,
not `DELETE FROM <table>;`. -/
theorem buildDeleteSQL_empty_conditions {α : Type} (relation : String) :
    buildDeleteSQL relation ([] : GoMap α) = ("DELETE FROM " ++ relation ++ " WHERE ;", []) ∧
    (buildDeleteSQL relation ([] : GoMap α)).1 ≠ "DELETE FROM " ++ relation ++ ";" := by
  have h : buildDeleteSQL relation ([] : GoMap α)
      = ("DELETE FROM " ++ relation ++ " WHERE ;", []) := by
    rw [buildDeleteSQL_eq]
    refine Prod.ext (String.ext ?_) rfl
    simp [eqClauses, GoMap.keys, sepBy]
  refine ⟨h, ?_⟩
  rw [h]
  intro hEq
  have hd := congrArg String.data hEq
  simp at hd

/-- C9: `buildSelectSQL` returns `SELECT <cols> FROM <table>`, then
` WHERE d1 = ? AND ... AND dm = ?` exactly when the condition set is non-empty, then
`;`, where `<cols>` is `*` for an empty projection list and the projection names joined
by `, ` in the given order otherwise; the parameters are the condition values in WHERE
order. -/
theorem buildSelectSQL_text_and_params {α : Type} (relation : String) (conditions : GoMap α)
    (toQuery : List String) :
    (buildSelectSQL relation conditions toQuery).1
      = "SELECT " ++ (if toQuery.isEmpty then "*" else sepBy ", " toQuery) ++ " FROM "
          ++ relation
          ++ (if conditions.isEmpty then ""
              else " WHERE " ++ sepBy " AND " (eqClauses conditions.keys))
          ++ ";" ∧
    (buildSelectSQL relation conditions toQuery).2 = conditions.vals := by
  rw [buildSelectSQL_eq]
  exact ⟨rfl, rfl⟩

/-- C10, the code at the failing input: with an empty condition set `buildUpdateSQL`
keeps the `WHERE` keyword and returns `UPDATE <table> SET c1 = ?, ..., cn = ? WHERE ;`,
not the update-all text `UPDATE <table> SET c1 = ?, ..., cn = ?;`; the parameters are the
new values. -/
theorem buildUpdateSQL_empty_conditions {α : Type} (relation : String) (newValues : GoMap α) :
    buildUpdateSQL relation [] newValues
      = ("UPDATE " ++ relation ++ " SET " ++ sepBy ", " (eqClauses newValues.keys)
          ++ " WHERE ;", newValues.vals) ∧
    (buildUpdateSQL relation [] newValues).1
      ≠ "UPDATE " ++ relation ++ " SET " ++ sepBy ", " (eqClauses newValues.keys) ++ ";" := by
  have h : buildUpdateSQL relation [] newValues
      = ("UPDATE " ++ relation ++ " SET " ++ sepBy ", " (eqClauses newValues.keys)
          ++ " WHERE ;", newValues.vals) := by
    rw [buildUpdateSQL_eq]
    refine Prod.ext (String.ext ?_) ?_
    · simp [eqClauses, GoMap.keys, sepBy]
    · simp [GoMap.vals]
  refine ⟨h, ?_⟩
  rw [h]
  intro hEq
  have hd := congrArg String.data hEq
  simp at hd


/-! ## Row materializers: lemmas -/

theorem get_set_self {α : Type} (m : GoMap α) (k : String) (v : α) :
    GoMap.get (GoMap.set m k v) k = some v := by
  induction m with
  | nil => simp [GoMap.set, GoMap.get]
  | cons e rest ih =>
    obtain ⟨k0, v0⟩ := e
    by_cases h : k0 = k
    · simp [GoMap.set, GoMap.get, h]
    · simp [GoMap.set, GoMap.get, h, ih]

theorem get_set_ne {α : Type} (m : GoMap α) {k key : String} (v : α) (hne : k ≠ key) :
    GoMap.get (GoMap.set m k v) key = GoMap.get m key := by
  induction m with
  | nil => simp [GoMap.set, GoMap.get, hne]
  | cons e rest ih =>
    obtain ⟨k0, v0⟩ := e
    by_cases h : k0 = k
    · subst h
      simp [GoMap.set, GoMap.get, hne]
    · by_cases h2 : k0 = key
      · subst h2
        simp [GoMap.set, GoMap.get, h]
      · simp [GoMap.set, GoMap.get, h, h2, ih]

theorem get_foldl_absent {α : Type} (ps : List (String × α)) (m : GoMap α) (col : String)
    (h : ∀ e ∈ ps, e.1 ≠ col) :
    GoMap.get (ps.foldl (fun row e => GoMap.set row e.1 e.2) m) col = GoMap.get m col := by
  induction ps generalizing m with
  | nil => rfl
  | cons e rest ih =>
    rw [List.foldl_cons, ih _ (fun x hx => h x (List.mem_cons_of_mem _ hx))]
    exact get_set_ne m e.2 (h e (List.mem_cons_self _ _))

theorem get_foldl_last {α : Type} (ps : List (String × α)) (m : GoMap α) (i : Nat)
    (col : String) (v : α) (hi : ps[i]? = some (col, v))
    (hlast : ∀ j e, i < j → ps[j]? = some e → e.1 ≠ col) :
    GoMap.get (ps.foldl (fun row e => GoMap.set row e.1 e.2) m) col = some v := by
  induction ps generalizing m i with
  | nil => simp at hi
  | cons e rest ih =>
    rw [List.foldl_cons]
    cases i with
    | zero =>
      simp only [List.getElem?_cons_zero, Option.some.injEq] at hi
      subst hi
      rw [get_foldl_absent]
      · exact get_set_self m col v
      · intro x hx
        obtain ⟨j, hj⟩ := List.getElem?_of_mem hx
        exact hlast (j + 1) x (Nat.succ_pos j) (by simpa using hj)
    | succ n =>
      apply ih _ n (by simpa using hi)
      intro j x hj hx
      exact hlast (j + 1) x (Nat.succ_lt_succ hj) (by simpa using hx)

theorem loops_agree {α : Type} (columns : List String) (rs : List (List α))
    (acc : List (List α)) (dacc : List (GoMap α)) :
    (rowsToListLoop columns rs acc = .ok (acc ++ rs) ∧
      rowsToDictLoop columns rs dacc = .ok (dacc ++ rs.map (dictOfRow columns)) ∧
      ∀ r ∈ rs, r.length = columns.length) ∨
    (∃ err, rowsToListLoop columns rs acc = .error err ∧
      rowsToDictLoop columns rs dacc = .error err) := by
  induction rs generalizing acc dacc with
  | nil => left; simp [rowsToListLoop, rowsToDictLoop]
  | cons r rest ih =>
    by_cases hlen : r.length = columns.length
    · have hrow : List.map (fun e => e.2) (columns.zip r) = r := by
        have := List.map_snd_zip columns r (le_of_eq hlen)
        simpa using this
      rcases ih (acc ++ [r]) (dacc ++ [dictOfRow columns r]) with ⟨h1, h2, h3⟩ | ⟨err, h1, h2⟩
      · left
        refine ⟨?_, ?_, ?_⟩
        · simp [rowsToListLoop, scan, hlen, hrow, h1]
        · simp only [rowsToDictLoop, scan, hlen, if_true]
          rw [← dictOfRow, h2]
          simp
        · intro x hx
          rcases List.mem_cons.1 hx with h | h
          · rw [h]; exact hlen
          · exact h3 x h
      · right
        refine ⟨err, ?_, ?_⟩
        · simp [rowsToListLoop, scan, hlen, hrow, h1]
        · simp only [rowsToDictLoop, scan, hlen, if_true]
          rw [← dictOfRow, h2]
    · right
      exact ⟨"sql: wrong number of destination arguments in Scan",
        by simp [rowsToListLoop, scan, hlen], by simp [rowsToDictLoop, scan, hlen]⟩

/-! ## Row materializers: claims -/

/-- C7, as stated, fails: for a cursor with the column names `x, x` and the row `1, 2`,
element 0 of the list-shape row is `1`, but the dict-shape row stores `2` under the name
of column 0. -/
theorem duplicate_column_shapes_differ :
    rowsToList (⟨.ok ["x", "x"], [[1, 2]]⟩ : Cursor Nat) = .ok [[1, 2]] ∧
    rowsToDict (⟨.ok ["x", "x"], [[1, 2]]⟩ : Cursor Nat) = .ok [[("x", 2)]] ∧
    ([1, 2] : List Nat)[0]? = some 1 ∧
    GoMap.get [("x", (2 : Nat))] "x" = some 2 ∧
    GoMap.get [("x", (2 : Nat))] "x" ≠ ([1, 2] : List Nat)[0]? := by
  refine ⟨rfl, rfl, rfl, rfl, ?_⟩
  decide

/-- C7, amended: for every cursor, `rowsToList` and `rowsToDict` fail alike, or both
return one row per cursor row, in cursor order; and for every row and every column index
`i` whose column name does not occur again at a later index (every index, when the column
names are pairwise distinct), element `i` of the row in the list shape equals the value
stored under the i-th column name in that row's dict shape. -/
theorem materializer_shapes_agree {α : Type} (rows : Cursor α) :
    (∀ err, rowsToList rows = .error err ↔ rowsToDict rows = .error err) ∧
    ∀ ls, rowsToList rows = .ok ls →
      ∃ ds columns, rowsToDict rows = .ok ds ∧ rows.columns = .ok columns ∧
        ls = rows.rows ∧ ds.length = ls.length ∧
        ∀ (r i : Nat) (row : List α) (drow : GoMap α) (col : String),
          ls[r]? = some row → ds[r]? = some drow →
          columns[i]? = some col → (∀ j, i < j → columns[j]? ≠ some col) →
          ∃ v, row[i]? = some v ∧ GoMap.get drow col = some v := by
  obtain ⟨cols, rs⟩ := rows
  cases cols with
  | error e =>
    refine ⟨fun err => by simp [rowsToList, rowsToDict], fun ls h => ?_⟩
    simp [rowsToList] at h
  | ok columns =>
    simp only [rowsToList, rowsToDict]
    rcases loops_agree columns rs [] [] with ⟨h1, h2, h3⟩ | ⟨err, h1, h2⟩
    · rw [h1, h2]
      refine ⟨fun err => by simp, fun ls hls => ?_⟩
      simp only [List.nil_append, Except.ok.injEq] at hls
      subst hls
      refine ⟨rs.map (dictOfRow columns), columns, by simp, rfl, rfl, by simp, ?_⟩
      intro r i row drow col hrow hdrow hcol hlast
      have hmem : row ∈ rs := by
        obtain ⟨hr, hget⟩ := List.getElem?_eq_some_iff.1 hrow
        exact hget ▸ List.getElem_mem hr
      have hlen := h3 row hmem
      have hd : drow = dictOfRow columns row := by
        rw [List.getElem?_map, hrow] at hdrow
        simpa using hdrow.symm
      have hi : i < row.length := by
        rw [hlen]
        exact (List.getElem?_eq_some_iff.1 hcol).1
      refine ⟨row[i], List.getElem?_eq_getElem hi, ?_⟩
      rw [hd, dictOfRow]
      apply get_foldl_last _ _ i
      · rw [List.getElem?_zip_eq_some]
        exact ⟨hcol, List.getElem?_eq_getElem hi⟩
      · intro j e hj he hcontra
        rw [List.getElem?_zip_eq_some] at he
        exact hlast j hj (hcontra ▸ he.1)
    · rw [h1, h2]
      refine ⟨fun e => by simp, fun ls hls => ?_⟩
      simp at hls

/-- Witness of C7: the cursor with columns `id, name` and the rows `1, 5` and `2, 6`. -/
theorem materializer_shapes_agree_witness :
    ∃ ds columns,
      rowsToDict (⟨.ok ["id", "name"], [[1, 5], [2, 6]]⟩ : Cursor Nat) = .ok ds ∧
      (⟨.ok ["id", "name"], [[1, 5], [2, 6]]⟩ : Cursor Nat).columns = .ok columns ∧
      ([[1, 5], [2, 6]] : List (List Nat))
        = (⟨.ok ["id", "name"], [[1, 5], [2, 6]]⟩ : Cursor Nat).rows ∧
      ds.length = ([[1, 5], [2, 6]] : List (List Nat)).length ∧
      ∀ (r i : Nat) (row : List Nat) (drow : GoMap Nat) (col : String),
        ([[1, 5], [2, 6]] : List (List Nat))[r]? = some row →
        ds[r]? = some drow → columns[i]? = some col →
        (∀ j, i < j → columns[j]? ≠ some col) →
        ∃ v, row[i]? = some v ∧ GoMap.get drow col = some v :=
  (materializer_shapes_agree (⟨.ok ["id", "name"], [[1, 5], [2, 6]]⟩ : Cursor Nat)).2
    [[1, 5], [2, 6]] rfl

/-! ## Handlers: claims -/

theorem dbExec_missing {σ H α : Type} (E : Engine σ H α) (db : GoMap H)
    (database query : String) (args : List α) (s : σ) (h : GoMap.get db database = none) :
    dbExec E db database query args s = none := by
  simp [dbExec, h]

theorem dbQuery_missing {σ H α : Type} (E : Engine σ H α) (db : GoMap H)
    (database query : String) (args : List α) (s : σ) (h : GoMap.get db database = none) :
    dbQuery E db database query args s = none := by
  simp [dbQuery, h]

/-- C8, as stated, fails: with the registry holding only `main` and the requested
database `nope`, create-tables with no table responds 200 success, and insert aborts
with a nil-handle panic; neither reports an error to the caller. -/
theorem unknown_database_not_reported :
    GoMap.get [("main", ())] (defaultDatabase "nope") = none ∧
    createTable countingEngine [("main", ())] (some ⟨[], "nope"⟩) 0
      = (.respond 200 .success, 0) ∧
    (createTable countingEngine [("main", ())] (some ⟨[], "nope"⟩) 0).1.reportsError
      = false ∧
    insertRecord countingEngine [("main", ())] (some ⟨"t", [("a", 1)], "nope"⟩) 0
      = (.panic .nilHandle, 0) ∧
    (insertRecord countingEngine [("main", ())]
      (some ⟨"t", [("a", 1)], "nope"⟩) 0).1.reportsError = false := by
  refine ⟨rfl, rfl, rfl, rfl, rfl⟩

/-- C8, amended: when the requested database name, after the empty-name-to-`main`
defaulting, is not a key of the registry map, no operation executes a statement (the
engine state is unchanged, for every engine), and none reports an UnknownDatabase error:
once the request is parsed, insert, delete, query, update, create-trigger and raw SQL
abort with a nil-handle panic, and create-tables responds success when no table is
listed and aborts with a panic otherwise. -/
theorem missing_database_panics {σ H α : Type} (E : Engine σ H α) (db : GoMap H) (s : σ)
    (name : String) (h : GoMap.get db (defaultDatabase name) = none) :
    (∀ tables : GoMap (List (GoMap String)),
      (tables = [] →
        createTable E db (some ⟨tables, name⟩) s = (.respond 200 .success, s)) ∧
      (tables ≠ [] →
        ∃ reason, createTable E db (some ⟨tables, name⟩) s = (.panic reason, s))) ∧
    (∀ relation records,
      insertRecord E db (some ⟨relation, records, name⟩) s = (.panic .nilHandle, s)) ∧
    (∀ (unmarshal : String → Option (GoMap α)) relation conditionsStr toQuery asDict conds,
      unmarshal conditionsStr = some conds →
      deleteRecord E unmarshal db ⟨relation, conditionsStr, name, toQuery, asDict⟩ s
        = (.panic .nilHandle, s)) ∧
    (∀ (unmarshal : String → Option (GoMap α)) relation conditionsStr toQuery asDict,
      (conditionsStr = "" ∨ ∃ conds, unmarshal conditionsStr = some conds) →
      queryRecords E unmarshal db ⟨relation, conditionsStr, name, toQuery, asDict⟩ s
        = (.panic .nilHandle, s)) ∧
    (∀ relation conditions newValues,
      updateRecord E db (some ⟨relation, conditions, newValues, name⟩) s
        = (.panic .nilHandle, s)) ∧
    (∀ triggerName action tableName triggeringEvent sqlOperation,
      createTrigger E db
        (some ⟨triggerName, action, tableName, triggeringEvent, sqlOperation, name⟩) s
        = ((.panic .nilHandle : Outcome α), s)) ∧
    (∀ sqlStatement placeholdersMode valuesTuple queryMode fkMode returnAsDict,
      executeSQL E db (some ⟨sqlStatement, name, placeholdersMode, valuesTuple, queryMode,
        fkMode, returnAsDict⟩) s = (.panic .nilHandle, s)) := by
  refine ⟨?_, ?_, ?_, ?_, ?_, ?_, ?_⟩
  · intro tables
    constructor
    · rintro rfl
      rfl
    · intro hne
      cases tables with
      | nil => exact absurd rfl hne
      | cons e rest =>
        obtain ⟨tableName, fields⟩ := e
        match fields with
        | [] => exact ⟨.indexOutOfRange, rfl⟩
        | [_] => exact ⟨.indexOutOfRange, rfl⟩
        | attributes :: foreignKeys :: _ =>
          refine ⟨.nilHandle, ?_⟩
          simp [createTable, createTableLoop, dbExec_missing E db _ _ _ s h]
  · intro relation records
    simp [insertRecord, dbExec_missing E db _ _ _ s h]
  · intro unmarshal relation conditionsStr toQuery asDict conds hconds
    simp [deleteRecord, hconds, dbExec_missing E db _ _ _ s h]
  · intro unmarshal relation conditionsStr toQuery asDict hconds
    rcases hconds with hempty | ⟨conds, hconds⟩
    · simp [queryRecords, hempty, dbQuery_missing E db _ _ _ s h]
    · by_cases hempty : conditionsStr = ""
      · simp [queryRecords, hempty, dbQuery_missing E db _ _ _ s h]
      · simp [queryRecords, hempty, hconds, dbQuery_missing E db _ _ _ s h]
  · intro relation conditions newValues
    simp [updateRecord, dbExec_missing E db _ _ _ s h]
  · intro triggerName action tableName triggeringEvent sqlOperation
    simp [createTrigger, dbExec_missing E db _ _ _ s h]
  · intro sqlStatement placeholdersMode valuesTuple queryMode fkMode returnAsDict
    cases fkMode <;>
      simp [executeSQL, executeSQLJournal, dbExec_missing E db _ _ _ s h]

/-- Witness of C8: the registry holding only `main`, the requested database `nope`, and
an insert request; the call counter of the engine stays 0. -/
theorem missing_database_panics_witness :
    GoMap.get [("main", ())] (defaultDatabase "nope") = none ∧
    insertRecord countingEngine [("main", ())] (some ⟨"t", [("a", 1)], "nope"⟩) 0
      = (.panic .nilHandle, 0) :=
  ⟨rfl, (missing_database_panics countingEngine [("main", ())] 0 "nope" rfl).2.1
    "t" [("a", 1)]⟩

end DatabaseControl
